import Mathlib

/-!
Verification of the benchmark harness in `src/scripts/bench_rust 2.rs`.

The file embeds the harness shallowly:

* `bench` models the Rust function `bench<F>(f, reps)`.  Wall-clock time is
  external input, so the elapsed duration of each invocation is supplied by an
  oracle `elapsed : ℕ → ℕ` (the value of `start.elapsed().as_nanos()`, an
  integer number of nanoseconds, for the given iteration).  `f64` values are
  idealized as rationals; the one non-finite value the code can produce —
  `0.0 / 0.0` when the sample list is empty — is modeled by `Option ℚ` with
  `none` playing the role of NaN.  The Rust function returns
  `(mean, variance.sqrt())`; since `ℚ` has no exact square root, the model
  keeps `variance` and takes the square root at the single place the value is
  consumed (`sqrtAsI64`, the model of `std as i64`).
* `runCase` models one iteration of the `for (test_name, mode, parallel)` loop
  in `main`; `main` models the whole loop.  The external world (the `python3`
  generator subprocess, `fs::write`, the `rustc` subprocess, the compiled
  artifact's subprocess, and the timer) is a `BenchEnv` of oracles.  A
  subprocess that could not be started is `none`; one that ran is
  `some ⟨exit-status, stdout bytes, stderr bytes⟩`.  The `.expect(...)` calls
  in the source abort the whole process; this is modeled by the `fatal` field
  of `CaseRun`.
* Emitted NDJSON records are association lists from field name to `JVal`,
  mirroring the `serde_json::json!` literals in the source.
-/

namespace Bench

/-- A JSON value as used by the records the harness prints. -/
inductive JVal where
  | s (v : String)
  | i (v : ℤ)
  | nat (v : ℕ)
  | b (v : Bool)
deriving DecidableEq

/-- One printed NDJSON record: field name to value, in construction order. -/
abbrev JRecord := List (String × JVal)

/-- One entry of the `test_cases` vector: `(test_name, mode, parallel)`. -/
structure TestCase where
  test : String
  mode : String
  parallel : Bool
deriving DecidableEq

/-- The environment metadata read once at the top of `main`: `GITHUB_SHA`,
the formatted UTC timestamp, `env::consts::OS`, `CPU_INFO`, and the iteration
bound `n` from `PCS_BENCH_N`. -/
structure RunMeta where
  commit : String
  timestamp : String
  os : String
  cpu : String
  n : ℕ
deriving DecidableEq

/-- Observable outcome of a subprocess that was successfully started:
its exit status (`success`), and its captured output and error streams as
byte sequences. -/
structure ProcOutput where
  success : Bool
  stdout : List ℕ
  stderr : List ℕ
deriving DecidableEq

/-- Oracles for everything outside the harness process.  `none` for a
subprocess field means the process could not be started (`io::Result::Err`);
`writeOk` is whether `fs::write("generated/rust_bench.rs", ..)` succeeds;
`compileErrMsg` is the text of the `io::Error` when `rustc` cannot be
started; `elapsed tc i` is the integer nanosecond reading
`start.elapsed().as_nanos()` for the `i`-th benchmark iteration. -/
structure BenchEnv where
  genOutput : TestCase → Option ProcOutput
  writeOk : TestCase → Bool
  compileOutput : TestCase → Option ProcOutput
  compileErrMsg : TestCase → String
  runOutput : TestCase → Option ProcOutput
  elapsed : TestCase → ℕ → ℕ

/-- The three pipeline stages whose subprocesses the loop body may start. -/
inductive Stage where
  | generation
  | compilation
  | execution
deriving DecidableEq

/-- What one iteration of the `main` loop did: which stage subprocesses were
invoked (in order), which records were printed, and whether the iteration
aborted the whole process via `.expect` (with the panic message). -/
structure CaseRun where
  stages : List Stage
  records : List JRecord
  fatal : Option String
deriving DecidableEq

/-- Models `String::from_utf8_lossy` byte-by-byte: an ASCII byte decodes to
itself, any other byte is replaced with U+FFFD.  (Bytes that open multi-byte
UTF-8 sequences also become replacement characters here; no claim evaluates
the decoder on a well-formed multi-byte sequence, so only the ASCII and
single-undecodable-byte behavior — which this matches — is relied on.)
The function is total: decoding never fails. -/
def fromUtf8Lossy (bs : List ℕ) : String :=
  String.mk (bs.map (fun b => if b < 128 then Char.ofNat b else '�'))

/-- Models `f64` division.  The only division the harness performs is by
`times.len()`; when the length is zero the Rust expression `0.0 / 0.0` is
NaN, modeled as `none`. -/
def fdiv (a : ℚ) (b : ℚ) : Option ℚ :=
  if b = 0 then none else some (a / b)

/-- Result of `bench`: how many times `f` was invoked, the collected `times`
vector, and the mean and variance of the samples (`none` = NaN).  The source
returns `(mean, variance.sqrt())`; the square root is applied by the consumer
`sqrtAsI64` (see module comment). -/
structure BenchResult where
  calls : ℕ
  times : List ℚ
  mean : Option ℚ
  var : Option ℚ
deriving DecidableEq

/-- Model of `fn bench<F>(f: F, reps: usize) -> (f64, f64)`.  Each loop
iteration invokes `f` once (counted in the fold state) and pushes the elapsed
time of that invocation, supplied by the `elapsed` oracle, onto `times`. -/
def bench (op : Unit → ℕ) (elapsed : ℕ → ℕ) (reps : ℕ) : BenchResult :=
  let st := (List.range reps).foldl
    (fun (s : ℕ × List ℚ) i =>
      let _call := op ()
      (s.1 + 1, s.2 ++ [((elapsed i : ℚ))]))
    (0, [])
  let mean := fdiv st.2.sum (st.2.length : ℚ)
  let var :=
    match mean with
    | none => none
    | some m => fdiv ((st.2.map (fun x => (x - m) ^ 2)).sum) (st.2.length : ℚ)
  ⟨st.1, st.2, mean, var⟩

/-- The closure passed to `bench` in the success branch of the loop body:
`let mut sum = 0; for i in 1..n { if i % 2 == 0 { sum += i * i } } sum`. -/
def benchClosure (n : ℕ) : Unit → ℕ := fun _ =>
  (List.range' 1 (n - 1)).foldl (fun sum i => if i % 2 = 0 then sum + i * i else sum) 0

/-- Models the cast `mean as i64`: an `f64` to `i64` cast truncates toward
zero, and NaN casts to 0. -/
def f64AsI64 (x : Option ℚ) : ℤ :=
  match x with
  | none => 0
  | some q => if 0 ≤ q then ⌊q⌋ else ⌈q⌉

/-- Models `std as i64` where `std = variance.sqrt()`: for variance `v ≥ 0`
the cast truncates `√v` toward zero, which equals `Nat.sqrt ⌊v⌋` (proved in
`sqrtAsI64_eq_floor_sqrt` below); for NaN variance (`none`), and for the
impossible `v < 0` (whose `sqrt` would be NaN), the cast yields 0. -/
def sqrtAsI64 (x : Option ℚ) : ℤ :=
  match x with
  | none => 0
  | some v => (Nat.sqrt (Int.toNat ⌊v⌋) : ℤ)

/-- The nine fields common to every record the loop prints. -/
def baseFields (md : RunMeta) (tc : TestCase) : JRecord :=
  [("commit", JVal.s md.commit),
   ("timestamp", JVal.s md.timestamp),
   ("os", JVal.s md.os),
   ("cpu", JVal.s md.cpu),
   ("backend", JVal.s "rust"),
   ("test", JVal.s tc.test),
   ("mode", JVal.s tc.mode),
   ("parallel", JVal.b tc.parallel),
   ("n", JVal.nat md.n)]

/-- An error record: the base fields plus `"error"`. -/
def errorRecord (md : RunMeta) (tc : TestCase) (e : String) : JRecord :=
  baseFields md tc ++ [("error", JVal.s e)]

/-- A success record: the base fields plus `"mean_ns"` and `"std_ns"`. -/
def successRecord (md : RunMeta) (tc : TestCase) (meanNs stdNs : ℤ) : JRecord :=
  baseFields md tc ++ [("mean_ns", JVal.i meanNs), ("std_ns", JVal.i stdNs)]

/-- One iteration of the `for (test_name, mode, parallel) in test_cases` loop.
Stage subprocesses are recorded in `stages` in invocation order.  Notes kept
faithful to the source:
* `cmd.output().expect("Failed to generate Rust code")` and
  `fs::write(..).expect("Failed to write generated Rust code")` abort the
  process (`fatal`), printing no record;
* the compile branch only distinguishes `Err` (cannot start `rustc`) — a
  non-zero `rustc` exit status is not inspected, and the loop proceeds to run
  the artifact;
* in the success branch the artifact's stdout is split into `lines` but never
  used; the measured operation is the in-process closure `benchClosure n`,
  with 10 repetitions. -/
def runCase (env : BenchEnv) (md : RunMeta) (tc : TestCase) : CaseRun :=
  match env.genOutput tc with
  | none => ⟨[Stage.generation], [], some "Failed to generate Rust code"⟩
  | some gen =>
    if gen.success = false then
      ⟨[Stage.generation], [errorRecord md tc (fromUtf8Lossy gen.stderr)], none⟩
    else if env.writeOk tc = false then
      ⟨[Stage.generation], [], some "Failed to write generated Rust code"⟩
    else
      match env.compileOutput tc with
      | none =>
        ⟨[Stage.generation, Stage.compilation],
         [errorRecord md tc ("Compilation failed: " ++ env.compileErrMsg tc)], none⟩
      | some _ =>
        match env.runOutput tc with
        | some run =>
          if run.success = true then
            let b := bench (benchClosure md.n) (env.elapsed tc) 10
            ⟨[Stage.generation, Stage.compilation, Stage.execution],
             [successRecord md tc (f64AsI64 b.mean) (sqrtAsI64 b.var)], none⟩
          else
            ⟨[Stage.generation, Stage.compilation, Stage.execution],
             [errorRecord md tc (fromUtf8Lossy run.stderr)], none⟩
        | none =>
          ⟨[Stage.generation, Stage.compilation, Stage.execution],
           [errorRecord md tc "Failed to run benchmark"], none⟩

/-- Model of `fn main` restricted to its loop: process the test cases in
order, concatenating the printed records; a panic (`fatal`) stops the run,
returning the records printed so far together with the panic message. -/
def main (env : BenchEnv) (md : RunMeta) (cases : List TestCase) :
    List JRecord × Option String :=
  match cases with
  | [] => ([], none)
  | tc :: rest =>
    let r := runCase env md tc
    match r.fatal with
    | some m => (r.records, some m)
    | none =>
      let rest' := main env md rest
      (r.records ++ rest'.1, rest'.2)

/-- Models `str::parse::<usize>`: an optional leading `+`, then one or more
ASCII digits, rejecting anything else and values that overflow a 64-bit
`usize`. -/
def parseUsize (s : String) : Option ℕ :=
  let cs :=
    match s.toList with
    | '+' :: rest => rest
    | cs => cs
  if cs = [] then none
  else if cs.all (fun c => c.isDigit) = false then none
  else
    let v := cs.foldl (fun a c => a * 10 + (c.toNat - 48)) 0
    if v < 2 ^ 64 then some v else none

/-- Whether the loop body avoids both `.expect` aborts for this test case:
the generator subprocess can be started, and — if it exits successfully, so
that the write is reached — the staging write succeeds. -/
def noPanicB (env : BenchEnv) (tc : TestCase) : Bool :=
  match env.genOutput tc with
  | none => false
  | some o => !o.success || env.writeOk tc

/-- Whether every stage subprocess starts and exits successfully for this
test case, i.e. the loop body reaches its success branch. -/
def pipelineOkB (env : BenchEnv) (tc : TestCase) : Bool :=
  match env.genOutput tc, env.compileOutput tc, env.runOutput tc with
  | some g, some _, some r => g.success && env.writeOk tc && r.success
  | _, _, _ => false

/-- Whether the generator subprocess runs, exits non-zero, and writes a
non-empty error stream, for this test case. -/
def genFailsLoudB (env : BenchEnv) (tc : TestCase) : Bool :=
  match env.genOutput tc with
  | some o => !o.success && !o.stderr.isEmpty
  | none => false

/-- Statement vocabulary: the arithmetic mean of a sample list. -/
def arithmeticMean (l : List ℚ) : ℚ := l.sum / l.length

/-- Statement vocabulary: the population variance of a sample list around
its arithmetic mean (so the population standard deviation is its square
root). -/
def popVariance (l : List ℚ) : ℚ :=
  ((l.map (fun x => (x - arithmeticMean l) ^ 2)).sum) / l.length

/-- Stated from the claim's words, independently of the code: the sum of
`i * i` over all even `i` in the half-open range `1..n` (the term at `i = 0`,
included by `List.range`, is `0` and changes nothing). -/
def sumEvenSquaresSpec (n : ℕ) : ℕ :=
  (((List.range n).filter (fun i => i % 2 == 0)).map (fun i => i * i)).sum

/-- Statement vocabulary: the record carries the nine metadata/identity
fields with the expected values. -/
def hasBaseFields (md : RunMeta) (tc : TestCase) (r : JRecord) : Prop :=
  r.lookup "commit" = some (JVal.s md.commit) ∧
  r.lookup "timestamp" = some (JVal.s md.timestamp) ∧
  r.lookup "os" = some (JVal.s md.os) ∧
  r.lookup "cpu" = some (JVal.s md.cpu) ∧
  r.lookup "backend" = some (JVal.s "rust") ∧
  r.lookup "test" = some (JVal.s tc.test) ∧
  r.lookup "mode" = some (JVal.s tc.mode) ∧
  r.lookup "parallel" = some (JVal.b tc.parallel) ∧
  r.lookup "n" = some (JVal.nat md.n)

/-- Statement vocabulary: the record carries either an error field and no
timing fields, or both timing fields and no error field. -/
def timingXorError (r : JRecord) : Prop :=
  ((r.lookup "error").isSome = true ∧
    r.lookup "mean_ns" = none ∧ r.lookup "std_ns" = none) ∨
  (r.lookup "error" = none ∧
    (r.lookup "mean_ns").isSome = true ∧ (r.lookup "std_ns").isSome = true)

/-- The single record a non-aborting loop iteration prints. -/
def caseRecord (env : BenchEnv) (md : RunMeta) (tc : TestCase) : JRecord :=
  (runCase env md tc).records.headI

/-- Concrete metadata fixture for witnesses and counterexamples; `n = 4`
keeps the placeholder workload small enough to evaluate inside proofs. -/
def md0 : RunMeta := ⟨"local", "2026-01-01T00:00:00Z", "linux", "unknown", 4⟩

/-- The first configured test case. -/
def tcA : TestCase := ⟨"sum_even_squares", "loops", false⟩

/-- The second configured test case. -/
def tcB : TestCase := ⟨"sum_even_squares", "parallel", true⟩

/-- The `test_cases` vector from the source:
`("sum_even_squares", "loops", false)` and
`("sum_even_squares", "parallel", true)`. -/
def testCases : List TestCase := [tcA, tcB]

/-- A subprocess outcome: exit non-zero, stderr bytes of `"err"`. -/
def failOutErr : ProcOutput := ⟨false, [], [101, 114, 114]⟩

/-- A subprocess outcome: exit zero, empty streams. -/
def okOut : ProcOutput := ⟨true, [], []⟩

/-- Environment in which the `python3` generator cannot be started. -/
def envGenSpawnFail : BenchEnv :=
  ⟨fun _ => none, fun _ => true, fun _ => some okOut, fun _ => "",
   fun _ => some okOut, fun _ _ => 0⟩

/-- Environment in which the generator runs but exits non-zero with stderr
bytes `"err"`. -/
def envGenNonZero : BenchEnv :=
  ⟨fun _ => some failOutErr, fun _ => true, fun _ => some okOut, fun _ => "",
   fun _ => some okOut, fun _ _ => 0⟩

/-- Environment in which generation succeeds, `rustc` runs but exits
non-zero (stderr `"bad"`), and the artifact then cannot be started. -/
def envCompileNonZero : BenchEnv :=
  ⟨fun _ => some okOut, fun _ => true, fun _ => some ⟨false, [], [98, 97, 100]⟩,
   fun _ => "", fun _ => none, fun _ _ => 0⟩

/-- Environment in which `rustc` itself cannot be started. -/
def envCompileSpawnFail : BenchEnv :=
  ⟨fun _ => some okOut, fun _ => true, fun _ => none, fun _ => "No such file",
   fun _ => some okOut, fun _ _ => 0⟩

/-- Environment in which the compiled artifact cannot be started. -/
def envRunSpawnFail : BenchEnv :=
  ⟨fun _ => some okOut, fun _ => true, fun _ => some okOut, fun _ => "",
   fun _ => none, fun _ _ => 0⟩

/-- Environment in which the artifact runs but exits non-zero with stderr
bytes `"boom"`. -/
def envRunNonZero : BenchEnv :=
  ⟨fun _ => some okOut, fun _ => true, fun _ => some okOut, fun _ => "",
   fun _ => some ⟨false, [], [98, 111, 111, 109]⟩, fun _ _ => 0⟩

/-- Fully successful environment whose timer reads 1 ns on the first seven
iterations and 0 ns afterwards: the ten samples average to `7/10`. -/
def envMean07 : BenchEnv :=
  ⟨fun _ => some okOut, fun _ => true, fun _ => some okOut, fun _ => "",
   fun _ => some okOut, fun _ i => if i < 7 then 1 else 0⟩

/-- Fully successful environment whose timer reads a constant 4 ns. -/
def envConst4 : BenchEnv :=
  ⟨fun _ => some okOut, fun _ => true, fun _ => some okOut, fun _ => "",
   fun _ => some okOut, fun _ _ => 4⟩

/-- Models the computation of `n` in `main`:
`env::var("PCS_BENCH_N").unwrap_or_else(|_| "1000000").parse().unwrap_or(1000000)`.
The argument is the value of the `PCS_BENCH_N` environment variable, `none`
when it is absent. -/
def readN (v : Option String) : ℕ :=
  (parseUsize (v.getD "1000000")).getD 1000000

/-! ## Helper lemmas about `bench` -/

/-- The measurement loop after `reps` iterations: `reps` invocations of the
operation, and the sample list is the elapsed reading of each iteration in
order. -/
theorem bench_foldl (op : Unit → ℕ) (elapsed : ℕ → ℕ) (reps : ℕ) :
    (List.range reps).foldl
      (fun (s : ℕ × List ℚ) i =>
        let _call := op ()
        (s.1 + 1, s.2 ++ [((elapsed i : ℚ))]))
      (0, []) =
    (reps, (List.range reps).map (fun i => ((elapsed i : ℚ)))) := by
  induction reps with
  | zero => rfl
  | succ k ih =>
    rw [List.range_succ, List.foldl_append, ih, List.map_append]
    rfl

/-- `bench` in closed form. -/
theorem bench_eq (op : Unit → ℕ) (elapsed : ℕ → ℕ) (reps : ℕ) :
    bench op elapsed reps =
      { calls := reps
        times := (List.range reps).map (fun i => ((elapsed i : ℚ)))
        mean := fdiv ((List.range reps).map (fun i => ((elapsed i : ℚ)))).sum (reps : ℚ)
        var :=
          match fdiv ((List.range reps).map (fun i => ((elapsed i : ℚ)))).sum (reps : ℚ) with
          | none => none
          | some m =>
            fdiv (((List.range reps).map (fun i => ((elapsed i : ℚ)))).map
                    (fun x => (x - m) ^ 2)).sum (reps : ℚ) } := by
  unfold bench
  rw [bench_foldl op elapsed reps]
  simp

/-- The number of recorded invocations equals the repetition count. -/
theorem bench_calls (op : Unit → ℕ) (elapsed : ℕ → ℕ) (reps : ℕ) :
    (bench op elapsed reps).calls = reps := by
  rw [bench_eq]

/-- The collected sample list, one elapsed reading per iteration in order. -/
theorem bench_times (op : Unit → ℕ) (elapsed : ℕ → ℕ) (reps : ℕ) :
    (bench op elapsed reps).times =
      (List.range reps).map (fun i => ((elapsed i : ℚ))) := by
  rw [bench_eq]

/-- Exactly `reps` samples are collected. -/
theorem bench_times_length (op : Unit → ℕ) (elapsed : ℕ → ℕ) (reps : ℕ) :
    (bench op elapsed reps).times.length = reps := by
  rw [bench_times]; simp

/-- For at least one repetition, the computed mean is (finite and) the
arithmetic mean of the collected samples. -/
theorem bench_mean (op : Unit → ℕ) (elapsed : ℕ → ℕ) (reps : ℕ) (h : reps ≠ 0) :
    (bench op elapsed reps).mean = some (arithmeticMean (bench op elapsed reps).times) := by
  have hc : ¬((reps : ℚ) = 0) := by exact_mod_cast h
  rw [bench_eq]
  simp [fdiv, hc, arithmeticMean]

/-- For at least one repetition, the computed variance is (finite and) the
population variance of the collected samples. -/
theorem bench_var (op : Unit → ℕ) (elapsed : ℕ → ℕ) (reps : ℕ) (h : reps ≠ 0) :
    (bench op elapsed reps).var = some (popVariance (bench op elapsed reps).times) := by
  have hc : ¬((reps : ℚ) = 0) := by exact_mod_cast h
  rw [bench_eq]
  simp [fdiv, hc, popVariance, arithmeticMean]

/-- A list of equal samples has population variance zero. -/
theorem popVariance_const (l : List ℚ) (c : ℚ) (h : ∀ x ∈ l, x = c) :
    popVariance l = 0 := by
  rcases eq_or_ne l [] with rfl | hne
  · simp [popVariance, arithmeticMean]
  · have h0 : l.length ≠ 0 := fun hh => hne (List.length_eq_zero.mp hh)
    have h0q : (l.length : ℚ) ≠ 0 := by exact_mod_cast h0
    have hmean : arithmeticMean l = c := by
      have hsum : l.sum = l.length • c := List.sum_eq_card_nsmul l c h
      rw [arithmeticMean, hsum, nsmul_eq_mul, mul_div_cancel_left₀ _ h0q]
    have hz : ∀ y ∈ l.map (fun x => (x - arithmeticMean l) ^ 2), y = 0 := by
      intro y hy
      obtain ⟨x, hx, rfl⟩ := List.mem_map.mp hy
      rw [hmean, h x hx]; ring
    rw [popVariance, List.sum_eq_zero hz]
    simp

/-- The cast `variance.sqrt() as i64` as modeled by `sqrtAsI64` is the floor
of the real square root of the variance. -/
theorem sqrtAsI64_eq_floor_sqrt (v : ℚ) (hv : 0 ≤ v) :
    sqrtAsI64 (some v) = ⌊Real.sqrt ((v : ℝ))⌋ := by
  have hfl : ((Int.toNat ⌊v⌋ : ℤ)) = ⌊v⌋ := Int.toNat_of_nonneg (Int.floor_nonneg.mpr hv)
  have hm1 : ((Int.toNat ⌊v⌋ : ℝ)) ≤ (v : ℝ) := by
    have h1 : ((⌊v⌋ : ℚ)) ≤ v := Int.floor_le v
    have : ((Int.toNat ⌊v⌋ : ℚ)) ≤ v := by
      rw [show ((Int.toNat ⌊v⌋ : ℚ)) = ((⌊v⌋ : ℤ) : ℚ) by exact_mod_cast hfl]
      exact h1
    exact_mod_cast this
  have hm2 : (v : ℝ) < (Int.toNat ⌊v⌋ : ℝ) + 1 := by
    have h1 : v < ⌊v⌋ + 1 := Int.lt_floor_add_one v
    have : v < ((Int.toNat ⌊v⌋ : ℚ)) + 1 := by
      rw [show ((Int.toNat ⌊v⌋ : ℚ)) = ((⌊v⌋ : ℤ) : ℚ) by exact_mod_cast hfl]
      exact_mod_cast h1
    exact_mod_cast this
  rw [sqrtAsI64]
  symm
  rw [Int.floor_eq_iff]
  constructor
  · calc ((Nat.sqrt (Int.toNat ⌊v⌋) : ℤ) : ℝ)
        = ((Nat.sqrt (Int.toNat ⌊v⌋) : ℕ) : ℝ) := by push_cast; ring
      _ ≤ Real.sqrt ((Int.toNat ⌊v⌋ : ℕ) : ℝ) := Real.nat_sqrt_le_real_sqrt
      _ ≤ Real.sqrt (v : ℝ) := Real.sqrt_le_sqrt hm1
  · have hlt : (v : ℝ) < ((Nat.sqrt (Int.toNat ⌊v⌋) + 1 : ℕ) : ℝ) ^ 2 := by
      have hn : Int.toNat ⌊v⌋ < (Nat.sqrt (Int.toNat ⌊v⌋) + 1) ^ 2 :=
        Nat.lt_succ_sqrt' (Int.toNat ⌊v⌋)
      have hn1 : (Int.toNat ⌊v⌋ : ℝ) + 1 ≤ ((Nat.sqrt (Int.toNat ⌊v⌋) + 1 : ℕ) : ℝ) ^ 2 := by
        exact_mod_cast Nat.succ_le_of_lt hn
      exact lt_of_lt_of_le hm2 hn1
    have := (Real.sqrt_lt' (by positivity)).mpr hlt
    calc Real.sqrt ((v : ℝ)) < ((Nat.sqrt (Int.toNat ⌊v⌋) + 1 : ℕ) : ℝ) := this
      _ = ((Nat.sqrt (Int.toNat ⌊v⌋) : ℤ) : ℝ) + 1 := by push_cast; ring

/-- Lossy decoding of a non-empty byte sequence is a non-empty string. -/
theorem fromUtf8Lossy_ne_empty (bs : List ℕ) (h : bs ≠ []) : fromUtf8Lossy bs ≠ "" := by
  cases bs with
  | nil => exact absurd rfl h
  | cons b t => simp [fromUtf8Lossy, String.ext_iff]

/-- A loop iteration aborts the process exactly when the `.expect` guards
trip: the generator cannot be started, or it succeeds and the staging write
fails. -/
theorem runCase_fatal_none (env : BenchEnv) (md : RunMeta) (tc : TestCase) :
    (runCase env md tc).fatal = none ↔ noPanicB env tc = true := by
  cases hg : env.genOutput tc with
  | none => simp [runCase, noPanicB, hg]
  | some o =>
    cases hs : o.success with
    | false => simp [runCase, noPanicB, hg, hs]
    | true =>
      cases hw : env.writeOk tc with
      | false => simp [runCase, noPanicB, hg, hs, hw]
      | true =>
        cases hc : env.compileOutput tc with
        | none => simp [runCase, noPanicB, hg, hs, hw, hc]
        | some co =>
          cases hr : env.runOutput tc with
          | none => simp [runCase, noPanicB, hg, hs, hw, hc, hr]
          | some ro =>
            cases hrs : ro.success <;>
              simp [runCase, noPanicB, hg, hs, hw, hc, hr, hrs]

/-- A non-aborting loop iteration prints exactly one record, which carries
the nine base fields and either an error or the two timing fields. -/
theorem runCase_complete (env : BenchEnv) (md : RunMeta) (tc : TestCase)
    (h : noPanicB env tc = true) :
    (runCase env md tc).fatal = none ∧
    ∃ r, (runCase env md tc).records = [r] ∧ hasBaseFields md tc r ∧ timingXorError r := by
  cases hg : env.genOutput tc with
  | none => simp [noPanicB, hg] at h
  | some o =>
    cases hs : o.success with
    | false =>
      refine ⟨?_, errorRecord md tc (fromUtf8Lossy o.stderr), ?_,
        ⟨rfl, rfl, rfl, rfl, rfl, rfl, rfl, rfl, rfl⟩, Or.inl ⟨rfl, rfl, rfl⟩⟩ <;>
        simp [runCase, hg, hs]
    | true =>
      cases hw : env.writeOk tc with
      | false => simp [noPanicB, hg, hs, hw] at h
      | true =>
        cases hc : env.compileOutput tc with
        | none =>
          refine ⟨?_, errorRecord md tc ("Compilation failed: " ++ env.compileErrMsg tc), ?_,
            ⟨rfl, rfl, rfl, rfl, rfl, rfl, rfl, rfl, rfl⟩, Or.inl ⟨rfl, rfl, rfl⟩⟩ <;>
            simp [runCase, hg, hs, hw, hc]
        | some co =>
          cases hr : env.runOutput tc with
          | none =>
            refine ⟨?_, errorRecord md tc "Failed to run benchmark", ?_,
              ⟨rfl, rfl, rfl, rfl, rfl, rfl, rfl, rfl, rfl⟩, Or.inl ⟨rfl, rfl, rfl⟩⟩ <;>
              simp [runCase, hg, hs, hw, hc, hr]
          | some ro =>
            cases hrs : ro.success with
            | false =>
              refine ⟨?_, errorRecord md tc (fromUtf8Lossy ro.stderr), ?_,
                ⟨rfl, rfl, rfl, rfl, rfl, rfl, rfl, rfl, rfl⟩, Or.inl ⟨rfl, rfl, rfl⟩⟩ <;>
                simp [runCase, hg, hs, hw, hc, hr, hrs]
            | true =>
              refine ⟨?_,
                successRecord md tc
                  (f64AsI64 (bench (benchClosure md.n) (env.elapsed tc) 10).mean)
                  (sqrtAsI64 (bench (benchClosure md.n) (env.elapsed tc) 10).var), ?_,
                ⟨rfl, rfl, rfl, rfl, rfl, rfl, rfl, rfl, rfl⟩, Or.inr ⟨rfl, rfl, rfl⟩⟩ <;>
                simp [runCase, hg, hs, hw, hc, hr, hrs]

/-- When no test case trips an `.expect` abort, the loop prints one record
per test case, in configuration order, and terminates normally. -/
theorem main_records (env : BenchEnv) (md : RunMeta) (cs : List TestCase)
    (h : ∀ tc ∈ cs, noPanicB env tc = true) :
    main env md cs = (cs.map (caseRecord env md), none) := by
  induction cs with
  | nil => rfl
  | cons tc rest ih =>
    have h1 := h tc (List.mem_cons_self tc rest)
    obtain ⟨hf, r, hr, -, -⟩ := runCase_complete env md tc h1
    have ih' := ih (fun x hx => h x (List.mem_cons_of_mem tc hx))
    simp [main, hf, hr, ih', caseRecord]

/-- The loop `for i in 1..(m+1)`, folded over `[1, …, m]`, computes the
spec-side even-square sum over `0..(m+1)`. -/
theorem benchClosure_foldl (m : ℕ) :
    (List.range' 1 m).foldl (fun sum i => if i % 2 = 0 then sum + i * i else sum) 0 =
    sumEvenSquaresSpec (m + 1) := by
  induction m with
  | zero => rfl
  | succ k ih =>
    rw [List.range'_concat, List.foldl_append, ih]
    have h1 : 1 + 1 * k = k + 1 := by omega
    rw [h1]
    have hsplit : sumEvenSquaresSpec (k + 1 + 1) =
        sumEvenSquaresSpec (k + 1) + (if (k + 1) % 2 = 0 then (k + 1) * (k + 1) else 0) := by
      rw [sumEvenSquaresSpec, sumEvenSquaresSpec, List.range_succ, List.filter_append,
        List.map_append, List.sum_append]
      congr 1
      by_cases hk : (k + 1) % 2 = 0 <;> simp [hk]
    rw [hsplit]
    by_cases hk : (k + 1) % 2 = 0 <;> simp [hk]

/-- The placeholder closure computes the sum of `i * i` over all even `i`
in `1..n`, as the claim states it. -/
theorem benchClosure_eq_spec (n : ℕ) : benchClosure n () = sumEvenSquaresSpec n := by
  cases n with
  | zero => rfl
  | succ k => exact benchClosure_foldl k

/-- On a test case whose every stage succeeds, the loop body prints the
success record built from `bench` applied to the placeholder closure. -/
theorem runCase_success (env : BenchEnv) (md : RunMeta) (tc : TestCase)
    (h : pipelineOkB env tc = true) :
    (runCase env md tc).records =
      [successRecord md tc
        (f64AsI64 (bench (benchClosure md.n) (env.elapsed tc) 10).mean)
        (sqrtAsI64 (bench (benchClosure md.n) (env.elapsed tc) 10).var)] := by
  cases hg : env.genOutput tc with
  | none => simp [pipelineOkB, hg] at h
  | some g =>
    cases hc : env.compileOutput tc with
    | none => simp [pipelineOkB, hg, hc] at h
    | some co =>
      cases hr : env.runOutput tc with
      | none => simp [pipelineOkB, hg, hc, hr] at h
      | some ro =>
        simp [pipelineOkB, hg, hc, hr] at h
        obtain ⟨⟨hgs, hw⟩, hrs⟩ := h
        simp [runCase, hg, hgs, hw, hc, hr, hrs]

/-- A test case on which the generator runs, exits non-zero, and writes a
non-empty error stream completes without aborting, and its single record has
a non-empty error field and no timing fields. -/
theorem genFailsLoud_record (env : BenchEnv) (md : RunMeta) (tc : TestCase)
    (h : genFailsLoudB env tc = true) :
    noPanicB env tc = true ∧
    (∃ e, (caseRecord env md tc).lookup "error" = some (JVal.s e) ∧ e ≠ "") ∧
    (caseRecord env md tc).lookup "mean_ns" = none ∧
    (caseRecord env md tc).lookup "std_ns" = none := by
  cases hgo : env.genOutput tc with
  | none => simp [genFailsLoudB, hgo] at h
  | some o =>
    simp [genFailsLoudB, hgo] at h
    obtain ⟨hs, hne⟩ := h
    have hcr : caseRecord env md tc = errorRecord md tc (fromUtf8Lossy o.stderr) := by
      simp [caseRecord, runCase, hgo, hs]
    refine ⟨by simp [noPanicB, hgo, hs], ⟨fromUtf8Lossy o.stderr, ?_, ?_⟩, ?_, ?_⟩
    · rw [hcr]; rfl
    · exact fromUtf8Lossy_ne_empty o.stderr hne
    · rw [hcr]; rfl
    · rw [hcr]; rfl

/-! ## Claim theorems -/

/-- C1: for every repetition count `r ≥ 1` and every operation, `bench`
invokes the operation exactly `r` times, collects exactly `r` elapsed-time
samples, and returns a mean equal to the arithmetic mean of those samples and
a variance equal to the population variance — so the returned standard
deviation is `sqrt(mean((x_i - mean)^2))` — and if all `r` samples are equal
the returned standard deviation is `0`. -/
theorem c1_measure_statistics (op : Unit → ℕ) (elapsed : ℕ → ℕ) (r : ℕ) (hr : 1 ≤ r) :
    (bench op elapsed r).calls = r ∧
    (bench op elapsed r).times.length = r ∧
    (bench op elapsed r).mean = some (arithmeticMean (bench op elapsed r).times) ∧
    (bench op elapsed r).var = some (popVariance (bench op elapsed r).times) ∧
    ∀ c : ℚ, (∀ x ∈ (bench op elapsed r).times, x = c) →
      (bench op elapsed r).var = some 0 ∧
      Real.sqrt (((popVariance (bench op elapsed r).times : ℚ) : ℝ)) = 0 := by
  have h0 : r ≠ 0 := by omega
  refine ⟨bench_calls op elapsed r, bench_times_length op elapsed r,
    bench_mean op elapsed r h0, bench_var op elapsed r h0, ?_⟩
  intro c hc
  have hpv := popVariance_const _ c hc
  constructor
  · rw [bench_var op elapsed r h0, hpv]
  · rw [hpv]
    simp

/-- Witness for C1 at `r = 3` with the identity elapsed oracle. -/
theorem c1_measure_statistics_witness :
    (bench (fun _ => 1) (fun i => i) 3).calls = 3 ∧
    (bench (fun _ => 1) (fun i => i) 3).times.length = 3 ∧
    (bench (fun _ => 1) (fun i => i) 3).mean =
      some (arithmeticMean (bench (fun _ => 1) (fun i => i) 3).times) ∧
    (bench (fun _ => 1) (fun i => i) 3).var =
      some (popVariance (bench (fun _ => 1) (fun i => i) 3).times) ∧
    ∀ c : ℚ, (∀ x ∈ (bench (fun _ => 1) (fun i => i) 3).times, x = c) →
      (bench (fun _ => 1) (fun i => i) 3).var = some 0 ∧
      Real.sqrt (((popVariance (bench (fun _ => 1) (fun i => i) 3).times : ℚ) : ℝ)) = 0 :=
  c1_measure_statistics (fun _ => 1) (fun i => i) 3 (by decide)

/-- C2 counterexample: with repetition count `0` the measurement performs
zero invocations but, far from failing with an `InvalidRepetitionCount`
condition, returns NaN statistics (`0.0 / 0.0` for both mean and standard
deviation, modeled as `none`) — exactly what the claim says never happens. -/
theorem c2_zero_reps_counterexample :
    (bench (fun _ => 0) (fun _ => 0) 0).calls = 0 ∧
    (bench (fun _ => 0) (fun _ => 0) 0).mean = none ∧
    (bench (fun _ => 0) (fun _ => 0) 0).var = none := by
  refine ⟨rfl, ?_, ?_⟩ <;> rfl

/-- C2 amended: calling the measurement with repetition count `0` performs
zero invocations of the operation, collects zero samples, and returns NaN
mean and NaN standard deviation (`0.0 / 0.0`); no `InvalidRepetitionCount`
condition exists in the code. -/
theorem c2_zero_reps_amended (op : Unit → ℕ) (elapsed : ℕ → ℕ) :
    bench op elapsed 0 = ⟨0, [], none, none⟩ := by
  rw [bench_eq]
  rfl

/-- C10: reading the iteration bound never fails — when `PCS_BENCH_N` is
absent `n` is `1000000`, and when it is present but does not parse as a
non-negative integer `n` silently falls back to the same default `1000000`. -/
theorem c10_read_n_fallback :
    readN none = 1000000 ∧
    ∀ s, parseUsize s = none → readN (some s) = 1000000 := by
  refine ⟨rfl, ?_⟩
  intro s hs
  simp [readN, hs]

/-- Witness for C10 at the unparsable value `"12x"`. -/
theorem c10_read_n_fallback_witness :
    readN none = 1000000 ∧ readN (some "12x") = 1000000 :=
  ⟨c10_read_n_fallback.1, c10_read_n_fallback.2 "12x" (by rfl)⟩

/-- C6: a test case whose generation stage fails (the generator subprocess
exits non-zero) never reaches the compile or execute stages, and the emitted
record's error field is the generator's error stream decoded by the total
lossy decoder — an undecodable byte becomes the replacement character rather
than a failure. -/
theorem c6_generation_short_circuit (env : BenchEnv) (md : RunMeta) (tc : TestCase)
    (o : ProcOutput) (hg : env.genOutput tc = some o) (hs : o.success = false) :
    (runCase env md tc).stages = [Stage.generation] ∧
    Stage.compilation ∉ (runCase env md tc).stages ∧
    Stage.execution ∉ (runCase env md tc).stages ∧
    (runCase env md tc).records = [errorRecord md tc (fromUtf8Lossy o.stderr)] ∧
    (∀ r ∈ (runCase env md tc).records,
      r.lookup "error" = some (JVal.s (fromUtf8Lossy o.stderr))) ∧
    (∀ b : ℕ, 128 ≤ b → fromUtf8Lossy [b] = String.mk ['�']) := by
  refine ⟨?_, ?_, ?_, ?_, ?_, ?_⟩
  · simp [runCase, hg, hs]
  · simp [runCase, hg, hs]
  · simp [runCase, hg, hs]
  · simp [runCase, hg, hs]
  · intro r hr
    simp [runCase, hg, hs] at hr
    subst hr
    rfl
  · intro b hb
    have hb' : ¬b < 128 := by omega
    simp [fromUtf8Lossy, hb']

/-- Witness for C6 in the environment where the generator exits non-zero
with stderr bytes `"err"`. -/
theorem c6_generation_short_circuit_witness :
    (runCase envGenNonZero md0 tcA).stages = [Stage.generation] ∧
    Stage.compilation ∉ (runCase envGenNonZero md0 tcA).stages ∧
    Stage.execution ∉ (runCase envGenNonZero md0 tcA).stages ∧
    (runCase envGenNonZero md0 tcA).records =
      [errorRecord md0 tcA (fromUtf8Lossy failOutErr.stderr)] ∧
    (∀ r ∈ (runCase envGenNonZero md0 tcA).records,
      r.lookup "error" = some (JVal.s (fromUtf8Lossy failOutErr.stderr))) ∧
    (∀ b : ℕ, 128 ≤ b → fromUtf8Lossy [b] = String.mk ['�']) :=
  c6_generation_short_circuit envGenNonZero md0 tcA failOutErr rfl rfl

/-- C5 counterexample: in `envCompileNonZero` the compiler subprocess runs
and exits non-zero, yet no compilation-stage failure is recorded: the harness
proceeds to invoke the execution stage, and the emitted record's error is the
execution-stage text `"Failed to run benchmark"`, which is not tagged with
the compilation stage. -/
theorem c5_compile_nonzero_counterexample :
    (envCompileNonZero.compileOutput tcA).isSome = true ∧
    (∀ o ∈ envCompileNonZero.compileOutput tcA, o.success = false) ∧
    Stage.execution ∈ (runCase envCompileNonZero md0 tcA).stages ∧
    (runCase envCompileNonZero md0 tcA).records =
      [errorRecord md0 tcA "Failed to run benchmark"] ∧
    (∀ r ∈ (runCase envCompileNonZero md0 tcA).records,
      r.lookup "error" = some (JVal.s "Failed to run benchmark")) ∧
    ("Failed to run benchmark" : String) ≠
      "Compilation failed: " ++ envCompileNonZero.compileErrMsg tcA := by
  decide

/-- C5 amended: the compile stage produces a compilation-tagged failure
record (`"Compilation failed: <io error>"`, skipping execution) only when the
compiler subprocess cannot be started; a non-zero compiler exit status is not
detected at the compile stage — the harness proceeds to invoke the execution
stage. -/
theorem c5_compile_failure_amended (env : BenchEnv) (md : RunMeta) (tc : TestCase)
    (g : ProcOutput) (hg : env.genOutput tc = some g) (hgs : g.success = true)
    (hw : env.writeOk tc = true) :
    (env.compileOutput tc = none →
      (runCase env md tc).records =
        [errorRecord md tc ("Compilation failed: " ++ env.compileErrMsg tc)] ∧
      Stage.execution ∉ (runCase env md tc).stages) ∧
    (∀ o, env.compileOutput tc = some o → o.success = false →
      Stage.execution ∈ (runCase env md tc).stages) := by
  constructor
  · intro hc
    constructor <;> simp [runCase, hg, hgs, hw, hc]
  · intro o hc _
    cases hr : env.runOutput tc with
    | none => simp [runCase, hg, hgs, hw, hc, hr]
    | some ro => cases hrs : ro.success <;> simp [runCase, hg, hgs, hw, hc, hr, hrs]

/-- Witness for C5 (amended) in the environment where `rustc` cannot be
started. -/
theorem c5_compile_failure_amended_witness :
    (envCompileSpawnFail.compileOutput tcA = none →
      (runCase envCompileSpawnFail md0 tcA).records =
        [errorRecord md0 tcA ("Compilation failed: " ++ envCompileSpawnFail.compileErrMsg tcA)] ∧
      Stage.execution ∉ (runCase envCompileSpawnFail md0 tcA).stages) ∧
    (∀ o, envCompileSpawnFail.compileOutput tcA = some o → o.success = false →
      Stage.execution ∈ (runCase envCompileSpawnFail md0 tcA).stages) :=
  c5_compile_failure_amended envCompileSpawnFail md0 tcA okOut rfl rfl rfl

/-- C8 counterexample: when the compiled artifact cannot be started there is
no captured error stream (its decode would be the empty string), and the
emitted diagnostic is instead the fixed text `"Failed to run benchmark"`. -/
theorem c8_exec_spawn_counterexample :
    envRunSpawnFail.runOutput tcA = none ∧
    (runCase envRunSpawnFail md0 tcA).records =
      [errorRecord md0 tcA "Failed to run benchmark"] ∧
    fromUtf8Lossy [] = "" ∧
    ("Failed to run benchmark" : String) ≠ "" := by
  decide

/-- C8 amended: the execute stage yields a failure record whenever the
artifact's process exits non-zero — with the captured error stream, decoded,
as diagnostic — or cannot be started — with the fixed text
`"Failed to run benchmark"` as diagnostic. -/
theorem c8_exec_failure_amended (env : BenchEnv) (md : RunMeta) (tc : TestCase)
    (g : ProcOutput) (hg : env.genOutput tc = some g) (hgs : g.success = true)
    (hw : env.writeOk tc = true) (hc : (env.compileOutput tc).isSome = true) :
    (∀ o, env.runOutput tc = some o → o.success = false →
      (runCase env md tc).records = [errorRecord md tc (fromUtf8Lossy o.stderr)]) ∧
    (env.runOutput tc = none →
      (runCase env md tc).records = [errorRecord md tc "Failed to run benchmark"]) := by
  obtain ⟨co, hco⟩ := Option.isSome_iff_exists.mp hc
  constructor
  · intro o hr hrs
    simp [runCase, hg, hgs, hw, hco, hr, hrs]
  · intro hr
    simp [runCase, hg, hgs, hw, hco, hr]

/-- Witness for C8 (amended) in the environment where the artifact exits
non-zero with stderr bytes `"boom"`. -/
theorem c8_exec_failure_amended_witness :
    (∀ o, envRunNonZero.runOutput tcA = some o → o.success = false →
      (runCase envRunNonZero md0 tcA).records =
        [errorRecord md0 tcA (fromUtf8Lossy o.stderr)]) ∧
    (envRunNonZero.runOutput tcA = none →
      (runCase envRunNonZero md0 tcA).records =
        [errorRecord md0 tcA "Failed to run benchmark"]) :=
  c8_exec_failure_amended envRunNonZero md0 tcA okOut rfl rfl rfl rfl

/-- C3 counterexample: when the generator subprocess cannot be started the
harness begins processing the test case (the generation stage is invoked) but
aborts the whole process via `.expect`, emitting zero records for it instead
of exactly one. -/
theorem c3_spawn_abort_counterexample :
    (runCase envGenSpawnFail md0 tcA).stages = [Stage.generation] ∧
    (runCase envGenSpawnFail md0 tcA).records = [] ∧
    (runCase envGenSpawnFail md0 tcA).fatal = some "Failed to generate Rust code" := by
  decide

/-- C3 amended: for every test case whose processing completes — neither
`.expect` abort trips, i.e. the generator subprocess starts and the staging
write succeeds when reached — exactly one record is emitted, containing the
fields commit, timestamp, os, cpu, backend, test, mode, parallel, n, plus
either the timing fields (`mean_ns`, `std_ns`) or an error field, never both
and never neither; a test case that trips an abort emits no record and stops
the run. -/
theorem c3_one_record_amended (env : BenchEnv) (md : RunMeta) (tc : TestCase)
    (h : (runCase env md tc).fatal = none) :
    (runCase env md tc).records.length = 1 ∧
    ∀ r ∈ (runCase env md tc).records, hasBaseFields md tc r ∧ timingXorError r := by
  obtain ⟨-, r, hrec, hb, hx⟩ :=
    runCase_complete env md tc ((runCase_fatal_none env md tc).mp h)
  rw [hrec]
  refine ⟨rfl, ?_⟩
  intro r' hr'
  simp at hr'
  subst hr'
  exact ⟨hb, hx⟩

/-- Witness for C3 (amended) in the environment where the artifact exits
non-zero: one record, base fields, error only. -/
theorem c3_one_record_amended_witness :
    (runCase envRunNonZero md0 tcA).records.length = 1 ∧
    ∀ r ∈ (runCase envRunNonZero md0 tcA).records,
      hasBaseFields md0 tcA r ∧ timingXorError r :=
  c3_one_record_amended envRunNonZero md0 tcA (by rfl)

/-- C4 counterexample: with the generator tool nonexistent (its subprocess
cannot be started) for both configured test cases, the harness does not emit
two error records and exit successfully — it aborts on the first test case,
emits zero records, and never attempts the second. -/
theorem c4_abort_counterexample :
    main envGenSpawnFail md0 testCases = ([], some "Failed to generate Rust code") := by
  decide

/-- C4 amended: a test case whose stage subprocesses run but exit non-zero
never aborts the run: when no test case trips an `.expect` abort (generator
spawn failure, or staging-write failure), all configured test cases are
attempted in configuration order with exactly one record each; and when the
generator tool exists but exits non-zero with a non-empty error stream for
both configured test cases, the harness emits exactly two records, both with
non-empty error fields and no timing fields, and completes normally.  (A
generator that cannot even be spawned instead aborts the run — see the
counterexample.) -/
theorem c4_failure_semantics_amended :
    (∀ env : BenchEnv, ∀ md : RunMeta, ∀ cs : List TestCase,
      (∀ tc ∈ cs, noPanicB env tc = true) →
      main env md cs = (cs.map (caseRecord env md), none) ∧
      ∀ tc ∈ cs, hasBaseFields md tc (caseRecord env md tc) ∧
        timingXorError (caseRecord env md tc)) ∧
    (∀ env : BenchEnv, ∀ md : RunMeta,
      (∀ tc ∈ testCases, genFailsLoudB env tc = true) →
      (main env md testCases).2 = none ∧
      (main env md testCases).1.length = 2 ∧
      ∀ r ∈ (main env md testCases).1,
        (∃ e, r.lookup "error" = some (JVal.s e) ∧ e ≠ "") ∧
        r.lookup "mean_ns" = none ∧ r.lookup "std_ns" = none) := by
  constructor
  · intro env md cs h
    refine ⟨main_records env md cs h, ?_⟩
    intro tc htc
    obtain ⟨-, r, hrec, hb, hx⟩ := runCase_complete env md tc (h tc htc)
    have hcr : caseRecord env md tc = r := by simp [caseRecord, hrec]
    rw [hcr]
    exact ⟨hb, hx⟩
  · intro env md h
    have hA := genFailsLoud_record env md tcA (h tcA (by decide))
    have hB := genFailsLoud_record env md tcB (h tcB (by decide))
    have hnp : ∀ tc ∈ testCases, noPanicB env tc = true := by
      intro tc htc
      simp [testCases] at htc
      rcases htc with rfl | rfl
      · exact hA.1
      · exact hB.1
    rw [main_records env md testCases hnp]
    refine ⟨rfl, rfl, ?_⟩
    intro r hr
    simp [testCases] at hr
    rcases hr with rfl | rfl
    · exact hA.2
    · exact hB.2

/-- Witness for C4 (amended) in the environment where the generator runs but
exits non-zero with stderr bytes `"err"` for every test case. -/
theorem c4_failure_semantics_amended_witness :
    (main envGenNonZero md0 testCases =
        (testCases.map (caseRecord envGenNonZero md0), none) ∧
      ∀ tc ∈ testCases, hasBaseFields md0 tc (caseRecord envGenNonZero md0 tc) ∧
        timingXorError (caseRecord envGenNonZero md0 tc)) ∧
    ((main envGenNonZero md0 testCases).2 = none ∧
      (main envGenNonZero md0 testCases).1.length = 2 ∧
      ∀ r ∈ (main envGenNonZero md0 testCases).1,
        (∃ e, r.lookup "error" = some (JVal.s e) ∧ e ≠ "") ∧
        r.lookup "mean_ns" = none ∧ r.lookup "std_ns" = none) :=
  ⟨c4_failure_semantics_amended.1 envGenNonZero md0 testCases (by decide),
   c4_failure_semantics_amended.2 envGenNonZero md0 (by decide)⟩

/-- C7 counterexample: with ten samples summing to 7 ns the mean is 0.7 ns,
whose rounding to integer nanoseconds is 1, yet the emitted `mean_ns` is the
truncation 0 — the emitted values are not the statistics rounded to integer
nanoseconds. -/
theorem c7_truncation_counterexample :
    (bench (benchClosure md0.n) (envMean07.elapsed tcA) 10).mean = some (7 / 10) ∧
    round ((7 : ℚ) / 10) = 1 ∧
    ∀ r ∈ (runCase envMean07 md0 tcA).records,
      r.lookup "mean_ns" = some (JVal.i 0) := by
  have hmean : (bench (benchClosure md0.n) (envMean07.elapsed tcA) 10).mean = some (7 / 10) := by
    rw [bench_eq]
    norm_num [fdiv, envMean07, List.range_succ]
  refine ⟨hmean, ?_, ?_⟩
  · norm_num [round_eq]
  · intro r hr
    rw [runCase_success envMean07 md0 tcA (by decide)] at hr
    simp at hr
    subst hr
    have hf : f64AsI64 (bench (benchClosure md0.n) (envMean07.elapsed tcA) 10).mean = 0 := by
      rw [hmean]
      norm_num [f64AsI64]
    calc List.lookup "mean_ns"
          (successRecord md0 tcA
            (f64AsI64 (bench (benchClosure md0.n) (envMean07.elapsed tcA) 10).mean)
            (sqrtAsI64 (bench (benchClosure md0.n) (envMean07.elapsed tcA) 10).var))
        = some (JVal.i (f64AsI64 (bench (benchClosure md0.n) (envMean07.elapsed tcA) 10).mean)) :=
          rfl
      _ = some (JVal.i 0) := by rw [hf]

/-- C7 amended: in every success record the emitted `mean_ns` is the mean
truncated toward zero — the floor `⌊mean⌋` of the (nonnegative) mean, not its
rounding — and `std_ns` is the truncation `⌊√variance⌋` of the standard
deviation; both emitted values are nonnegative. -/
theorem c7_truncated_stats_amended (env : BenchEnv) (md : RunMeta) (tc : TestCase)
    (g ro : ProcOutput) (hg : env.genOutput tc = some g) (hgs : g.success = true)
    (hw : env.writeOk tc = true) (hc : (env.compileOutput tc).isSome = true)
    (hr : env.runOutput tc = some ro) (hrs : ro.success = true) :
    ∃ m v : ℚ,
      (bench (benchClosure md.n) (env.elapsed tc) 10).mean = some m ∧
      (bench (benchClosure md.n) (env.elapsed tc) 10).var = some v ∧
      0 ≤ m ∧ 0 ≤ v ∧
      (runCase env md tc).records = [successRecord md tc ⌊m⌋ (sqrtAsI64 (some v))] ∧
      0 ≤ ⌊m⌋ ∧
      sqrtAsI64 (some v) = ⌊Real.sqrt ((v : ℝ))⌋ ∧
      0 ≤ sqrtAsI64 (some v) := by
  have hok : pipelineOkB env tc = true := by
    obtain ⟨co, hco⟩ := Option.isSome_iff_exists.mp hc
    simp [pipelineOkB, hg, hco, hr, hgs, hw, hrs]
  have h10 : (10 : ℕ) ≠ 0 := by decide
  have hmean := bench_mean (benchClosure md.n) (env.elapsed tc) 10 h10
  have hvar := bench_var (benchClosure md.n) (env.elapsed tc) 10 h10
  have htnn : ∀ x ∈ (bench (benchClosure md.n) (env.elapsed tc) 10).times, (0 : ℚ) ≤ x := by
    rw [bench_times]
    intro x hx
    obtain ⟨i, -, rfl⟩ := List.mem_map.mp hx
    positivity
  have hm0 : 0 ≤ arithmeticMean (bench (benchClosure md.n) (env.elapsed tc) 10).times := by
    apply div_nonneg (List.sum_nonneg htnn)
    positivity
  have hv0 : 0 ≤ popVariance (bench (benchClosure md.n) (env.elapsed tc) 10).times := by
    apply div_nonneg
    · apply List.sum_nonneg
      intro y hy
      obtain ⟨x, -, rfl⟩ := List.mem_map.mp hy
      positivity
    · positivity
  refine ⟨arithmeticMean (bench (benchClosure md.n) (env.elapsed tc) 10).times,
         popVariance (bench (benchClosure md.n) (env.elapsed tc) 10).times,
         hmean, hvar, hm0, hv0, ?_, Int.floor_nonneg.mpr hm0,
         sqrtAsI64_eq_floor_sqrt _ hv0, ?_⟩
  · rw [runCase_success env md tc hok, hmean, hvar]
    simp [f64AsI64, hm0]
  · rw [sqrtAsI64]
    exact Int.natCast_nonneg _

/-- Witness for C7 (amended) in the fully successful environment with a
constant 4 ns timer. -/
theorem c7_truncated_stats_amended_witness :
    ∃ m v : ℚ,
      (bench (benchClosure md0.n) (envConst4.elapsed tcA) 10).mean = some m ∧
      (bench (benchClosure md0.n) (envConst4.elapsed tcA) 10).var = some v ∧
      0 ≤ m ∧ 0 ≤ v ∧
      (runCase envConst4 md0 tcA).records =
        [successRecord md0 tcA ⌊m⌋ (sqrtAsI64 (some v))] ∧
      0 ≤ ⌊m⌋ ∧
      sqrtAsI64 (some v) = ⌊Real.sqrt ((v : ℝ))⌋ ∧
      0 ≤ sqrtAsI64 (some v) :=
  c7_truncated_stats_amended envConst4 md0 tcA okOut okOut rfl rfl rfl rfl rfl rfl

/-- C9: the operation handed to the measurement engine on every successful
pipeline is the fixed placeholder — summing `i * i` over all even `i` in
`1..n` — rather than an invocation of the compiled artifact; consequently any
two succeeding test cases whose environments share the timer oracle and
iteration bound receive identical `mean_ns`/`std_ns` values, regardless of
mode, parallel flag, or anything the artifact printed. -/
theorem c9_placeholder_workload :
    (∀ n : ℕ, benchClosure n () = sumEvenSquaresSpec n) ∧
    (∀ env₁ env₂ : BenchEnv, ∀ md : RunMeta, ∀ tc₁ tc₂ : TestCase,
      pipelineOkB env₁ tc₁ = true → pipelineOkB env₂ tc₂ = true →
      env₁.elapsed tc₁ = env₂.elapsed tc₂ →
      ∃ meanNs stdNs : ℤ,
        (runCase env₁ md tc₁).records = [successRecord md tc₁ meanNs stdNs] ∧
        (runCase env₂ md tc₂).records = [successRecord md tc₂ meanNs stdNs]) := by
  refine ⟨benchClosure_eq_spec, ?_⟩
  intro env₁ env₂ md tc₁ tc₂ h1 h2 he
  refine ⟨f64AsI64 (bench (benchClosure md.n) (env₁.elapsed tc₁) 10).mean,
          sqrtAsI64 (bench (benchClosure md.n) (env₁.elapsed tc₁) 10).var,
          runCase_success env₁ md tc₁ h1, ?_⟩
  rw [runCase_success env₂ md tc₂ h2, ← he]

/-- Witness for C9: the two configured test cases (loops vs parallel) under
the same fully successful environment receive the same timing values. -/
theorem c9_placeholder_workload_witness :
    benchClosure 9 () = sumEvenSquaresSpec 9 ∧
    ∃ meanNs stdNs : ℤ,
      (runCase envConst4 md0 tcA).records = [successRecord md0 tcA meanNs stdNs] ∧
      (runCase envConst4 md0 tcB).records = [successRecord md0 tcB meanNs stdNs] :=
  ⟨c9_placeholder_workload.1 9,
   c9_placeholder_workload.2 envConst4 envConst4 md0 tcA tcB (by decide) (by decide) rfl⟩

end Bench
